import Mathlib

/-!
Shallow embedding of the Rustafarian drone (src/src/lib.rs): a node of a
simulated packet-switched mesh network.  Machine integers (`u8` node ids,
`u64` session/flood ids, `usize` hop indices) are modelled as `Nat` (the code
performs no arithmetic on them beyond `hop_index + 1`, far from any overflow);
the `f32` drop probability is modelled as `Rat`.  Crossbeam channels are
external collaborators: an outbound send on a neighbor channel is recorded as
an emission `(neighbor id, packet)`, and the two inbound channels are
modelled as explicit queues consumed by the event-loop function `runDrone`.
Rust panics (`todo!()` placeholders, `unwrap()` on `None`, out-of-bounds
indexing) are modelled as the `Panic` outcome of an `Except`: a `Panic`
result means the node aborts at that source location, and nothing after it
executes.
-/

/-- Node kinds of the `wg_2024` protocol-types collaborator. -/
inductive NodeType where
  | Client
  | Drone
  | Server
  deriving DecidableEq

/-- Source routing header: full hop sequence plus the current hop index. -/
structure SourceRoutingHeader where
  hop_index : Nat
  hops : List Nat
  deriving DecidableEq

/-- Flood request: flood identifier and the path trace of visited
(node identifier, node kind) pairs.  Only the fields the drone code reads
are modelled. -/
structure FloodRequest where
  flood_id : Nat
  path_trace : List (Nat × NodeType)
  deriving DecidableEq

/-- Flood response: the same flood identifier plus the finished path trace. -/
structure FloodResponse where
  flood_id : Nat
  path_trace : List (Nat × NodeType)
  deriving DecidableEq

/-- Acknowledgment payload; opaque to this drone (never inspected). -/
structure Ack where
  deriving DecidableEq

/-- Negative-acknowledgment payload; opaque to this drone (never inspected). -/
structure Nack where
  deriving DecidableEq

/-- Data-fragment payload; opaque to this drone (never inspected). -/
structure Fragment where
  deriving DecidableEq

/-- The packet kind tagged union. -/
inductive PacketType where
  | Nack (nack : Nack)
  | Ack (ack : Ack)
  | MsgFragment (fragment : Fragment)
  | FloodRequest (flood_request : FloodRequest)
  | FloodResponse (flood_response : FloodResponse)
  deriving DecidableEq

/-- A packet: kind, source routing header, session identifier. -/
structure Packet where
  pack_type : PacketType
  routing_header : SourceRoutingHeader
  session_id : Nat
  deriving DecidableEq

/-- Controller commands.  The `Sender` handle carried by `AddSender` is an
opaque channel endpoint; the model keys emissions by neighbor identifier, so
only the identifier is kept. -/
inductive DroneCommand where
  | AddSender (node_id : Nat)
  | SetPacketDropRate (pdr : Rat)
  | Crash
  deriving DecidableEq

/-- Rust panic sites of the drone code.  Each constructor marks one
`todo!()` placeholder, one `unwrap()` of an empty option, or one
out-of-bounds index in src/src/lib.rs.  Reaching one aborts the node: the
code defines no recoverable error values at all. -/
inductive Panic where
  | todoNack
  | todoAck
  | todoMsgFragment
  | todoMisrouted
  | todoDestinationReached
  | todoUnknownNextHop
  | unwrapEmptyPathTrace
  | hopIndexOutOfBounds
  deriving DecidableEq

/-- The drone state.  `neighbors` models the key set of the
`HashMap<NodeId, Sender<Packet>>` Channel Registry (values are opaque channel
endpoints; an emission is keyed by the neighbor identifier); `flood_requests`
models the `HashSet<u64>` Flood Memory as a list queried by `contains`.  The
three channel-handle fields of the Rust struct are represented by the
explicit queues and emission lists of the functions below. -/
structure RustafarianDrone where
  id : Nat
  pdr : Rat
  neighbors : List Nat
  flood_requests : List Nat
  crashed : Bool
  deriving DecidableEq

/-- `add_neighbor`: `HashMap::insert` on the Channel Registry, modelled on
the key set (an existing key keeps the set unchanged, the value being the
opaque channel). -/
def add_neighbor (st : RustafarianDrone) (node_id : Nat) : RustafarianDrone :=
  { st with
    neighbors :=
      if st.neighbors.contains node_id then st.neighbors
      else st.neighbors ++ [node_id] }

/-- `make_crash`: sets the crashed flag. -/
def make_crash (st : RustafarianDrone) : RustafarianDrone :=
  { st with crashed := true }

/-- `set_packet_drop_rate`: overwrites the drop probability. -/
def set_packet_drop_rate (st : RustafarianDrone) (pdr : Rat) : RustafarianDrone :=
  { st with pdr := pdr }

/-- `should_drop`: compares a uniform draw from `[0, 100)` (passed explicitly,
the Rust code draws it from the thread RNG) against the drop probability. -/
def should_drop (st : RustafarianDrone) (draw : Rat) : Bool :=
  decide (draw < st.pdr)

/-- `handle_command`: dispatches a controller command. -/
def handle_command (st : RustafarianDrone) (command : DroneCommand) : RustafarianDrone :=
  match command with
  | DroneCommand.AddSender node_id => add_neighbor st node_id
  | DroneCommand.SetPacketDropRate pdr => set_packet_drop_rate st pdr
  | DroneCommand.Crash => make_crash st

/-- `forward_packet`: advances a source-routed packet one hop.  Mirrors the
Rust function line by line: indexing `hops[hop_index]` out of bounds is the
`hopIndexOutOfBounds` panic; the three `todo!()` placeholders (wrong
receiver, last hop, unknown neighbor) are the corresponding `Panic`
values; a successful channel send is the single emission returned. -/
def forward_packet (st : RustafarianDrone) (packet : Packet) :
    Except Panic (List (Nat × Packet)) :=
  match packet.routing_header.hops[packet.routing_header.hop_index]? with
  | none => Except.error Panic.hopIndexOutOfBounds
  | some curr_hop =>
    if st.id ≠ curr_hop then
      Except.error Panic.todoMisrouted
    else
      let new_packet : Packet :=
        { packet with
          routing_header :=
            { packet.routing_header with
              hop_index := packet.routing_header.hop_index + 1 } }
      let next_hop_index := new_packet.routing_header.hop_index
      if next_hop_index ≥ packet.routing_header.hops.length then
        Except.error Panic.todoDestinationReached
      else
        match packet.routing_header.hops[next_hop_index]? with
        | none => Except.error Panic.hopIndexOutOfBounds
        | some next_hop =>
          if st.neighbors.contains next_hop then
            Except.ok [(next_hop, new_packet)]
          else
            Except.error Panic.todoUnknownNextHop

/-- `handle_flood_req`: the flood protocol handler.  Seen flood id: read the
sender from the last trace entry (`unwrap`, panicking on an empty trace),
append self, reverse the node identifiers for the return route, and send the
flood response to the sender if it is a neighbor (the `None` arm of the
lookup does nothing).  Unseen flood id: read the arrival neighbor from the
last trace entry (`unwrap` again), append self, and send the grown request to
every neighbor except the arrival one.  The Rust function takes `&mut self`
but assigns no field; the returned state is threaded explicitly. -/
def handle_flood_req (st : RustafarianDrone) (packet : FloodRequest)
    (session_id : Nat) (routing_header : SourceRoutingHeader) :
    Except Panic (RustafarianDrone × List (Nat × Packet)) :=
  if st.flood_requests.contains packet.flood_id then
    match packet.path_trace.getLast? with
    | none => Except.error Panic.unwrapEmptyPathTrace
    | some last_entry =>
      let sender_id := last_entry.1
      let new_path_trace := packet.path_trace ++ [(st.id, NodeType.Drone)]
      let route := (new_path_trace.map (fun node => node.1)).reverse
      let response : FloodResponse :=
        { flood_id := packet.flood_id, path_trace := new_path_trace }
      let new_packet : Packet :=
        { pack_type := PacketType.FloodResponse response
          session_id := session_id
          routing_header := { hop_index := 1, hops := route } }
      if st.neighbors.contains sender_id then
        Except.ok (st, [(sender_id, new_packet)])
      else
        Except.ok (st, [])
  else
    match packet.path_trace.getLast? with
    | none => Except.error Panic.unwrapEmptyPathTrace
    | some last_entry =>
      let last_node := last_entry.1
      let new_path_trace := packet.path_trace ++ [(st.id, NodeType.Drone)]
      let new_request : FloodRequest :=
        { flood_id := packet.flood_id, path_trace := new_path_trace }
      let sends := (st.neighbors.filter (fun neighbor_id => neighbor_id ≠ last_node)).map
        (fun neighbor_id =>
          (neighbor_id,
            ({ pack_type := PacketType.FloodRequest new_request
               routing_header := routing_header
               session_id := session_id } : Packet)))
      Except.ok (st, sends)

/-- `handle_packet`: dispatch on the packet kind.  `Nack`, `Ack` and
`MsgFragment` are `todo!()` panics; a flood request goes to the flood
handler; a flood response is only logged (no state change, no emission). -/
def handle_packet (st : RustafarianDrone) (packet : Packet) :
    Except Panic (RustafarianDrone × List (Nat × Packet)) :=
  match packet.pack_type with
  | PacketType.Nack _ => Except.error Panic.todoNack
  | PacketType.Ack _ => Except.error Panic.todoAck
  | PacketType.MsgFragment _ => Except.error Panic.todoMsgFragment
  | PacketType.FloodRequest flood_request =>
      handle_flood_req st flood_request packet.session_id packet.routing_header
  | PacketType.FloodResponse _ => Except.ok (st, [])

/-- The data-plane half of the event loop `run`: packets handled in queue
order, concatenating emissions.  A panic in a packet handler aborts the
run. -/
def runPackets : RustafarianDrone → List Packet →
    Except Panic (RustafarianDrone × List (Nat × Packet))
  | st, [] => Except.ok (st, [])
  | st, p :: ps =>
    match handle_packet st p with
    | Except.error e => Except.error e
    | Except.ok (st1, es) =>
      match runPackets st1 ps with
      | Except.error e => Except.error e
      | Except.ok (st2, es2) => Except.ok (st2, es ++ es2)

/-- The event loop `run`, on explicit finite queues.  `select_biased!` always
prefers a ready command over a ready packet, so with pre-filled queues the
command queue drains first.  A `Crash` command breaks out of the loop at once
(before `handle_command` runs); any other command is handled and the loop
continues.  Exhaustion of both queues models the loop blocking forever with
no further input. -/
def runDrone : RustafarianDrone → List DroneCommand → List Packet →
    Except Panic (RustafarianDrone × List (Nat × Packet))
  | st, DroneCommand.Crash :: _, _ => Except.ok (st, [])
  | st, c :: cs, pkts => runDrone (handle_command st c) cs pkts
  | st, [], pkts => runPackets st pkts

/-- Concrete drone: id 1, neighbors 2 and 3, empty Flood Memory. -/
def st0 : RustafarianDrone :=
  { id := 1, pdr := 0, neighbors := [2, 3], flood_requests := [], crashed := false }

/-- Concrete flood request with id 42 arriving from node 5. -/
def req42 : FloodRequest :=
  { flood_id := 42, path_trace := [(5, NodeType.Drone)] }

/-- Concrete routing header carried by the incoming flood request. -/
def hdr0 : SourceRoutingHeader :=
  { hop_index := 0, hops := [] }

/-- The flood request copy that `st0` broadcasts when handling `req42`. -/
def out42 : Packet :=
  { pack_type := PacketType.FloodRequest
      { flood_id := 42, path_trace := [(5, NodeType.Drone), (1, NodeType.Drone)] }
    routing_header := hdr0
    session_id := 9 }

/-- The emissions of `st0` handling `req42` with session 9. -/
def broadcast42 : List (Nat × Packet) := [(2, out42), (3, out42)]

/-- Concrete drone that has flood id 42 in memory and no neighbors at all. -/
def stSeenNoNbr : RustafarianDrone :=
  { id := 1, pdr := 0, neighbors := [], flood_requests := [42], crashed := false }

/-- Concrete drone that has flood id 42 in memory and neighbors 2, 3 and 6. -/
def stSeen : RustafarianDrone :=
  { id := 1, pdr := 0, neighbors := [2, 3, 6], flood_requests := [42], crashed := false }

/-- Concrete flood request with id 42 whose trace ends at node 6. -/
def req42from6 : FloodRequest :=
  { flood_id := 42, path_trace := [(5, NodeType.Drone), (6, NodeType.Drone)] }

/-- Concrete packet whose current hop is node 2, not node 1: misrouted when
delivered to `st0`. -/
def misrouted : Packet :=
  { pack_type := PacketType.Ack {}
    routing_header := { hop_index := 0, hops := [2, 3] }
    session_id := 5 }

/-- Getting the last element of a list ending in an appended singleton. -/
theorem getLast_snoc {α : Type} (l : List α) (a : α) : (l ++ [a]).getLast? = some a := by
  rw [List.getLast?_append_cons]
  rfl

/-- Branch equation for `handle_flood_req` on a seen flood identifier and a
non-empty path trace, written with the trace's last entry explicit. -/
theorem handle_flood_req_seen (st : RustafarianDrone) (fid : Nat)
    (trace : List (Nat × NodeType)) (prev : Nat) (k : NodeType) (sid : Nat)
    (hdr : SourceRoutingHeader) (hseen : st.flood_requests.contains fid = true) :
    handle_flood_req st { flood_id := fid, path_trace := trace ++ [(prev, k)] } sid hdr =
      if st.neighbors.contains prev then
        Except.ok (st, [(prev,
          { pack_type := PacketType.FloodResponse
              { flood_id := fid,
                path_trace := (trace ++ [(prev, k)]) ++ [(st.id, NodeType.Drone)] }
            routing_header :=
              { hop_index := 1,
                hops := (((trace ++ [(prev, k)]) ++ [(st.id, NodeType.Drone)]).map
                  (fun node => node.1)).reverse }
            session_id := sid })])
      else Except.ok (st, []) := by
  have hseen2 : fid ∈ st.flood_requests := by simpa using hseen
  unfold handle_flood_req
  simp [hseen2, getLast_snoc]

/-- Branch equation for `handle_flood_req` on an unseen flood identifier and a
non-empty path trace, written with the trace's last entry explicit. -/
theorem handle_flood_req_unseen (st : RustafarianDrone) (fid : Nat)
    (trace : List (Nat × NodeType)) (prev : Nat) (k : NodeType) (sid : Nat)
    (hdr : SourceRoutingHeader) (hnew : st.flood_requests.contains fid = false) :
    handle_flood_req st { flood_id := fid, path_trace := trace ++ [(prev, k)] } sid hdr =
      Except.ok (st,
        (st.neighbors.filter (fun neighbor_id => neighbor_id ≠ prev)).map
          (fun neighbor_id =>
            (neighbor_id,
              ({ pack_type := PacketType.FloodRequest
                   { flood_id := fid,
                     path_trace := (trace ++ [(prev, k)]) ++ [(st.id, NodeType.Drone)] }
                 routing_header := hdr
                 session_id := sid } : Packet)))) := by
  have hnew2 : fid ∉ st.flood_requests := by simpa using hnew
  unfold handle_flood_req
  simp [hnew2, getLast_snoc]

/-- Claim C1, refuted on the code: handling a flood request whose identifier
is not yet in the Flood Memory does NOT record the identifier — the handler
returns the input state with its (still empty) Flood Memory unchanged, and a
second delivery of the same flood identifier takes the broadcast branch
again, producing the very same flood-request emissions instead of a
turn-around response. -/
theorem c1_flood_memory_never_recorded :
    ∃ st1 es1, handle_flood_req st0 req42 9 hdr0 = Except.ok (st1, es1) ∧
      st1.flood_requests.contains req42.flood_id = false ∧
      handle_flood_req st1 req42 9 hdr0 = Except.ok (st1, es1) ∧
      es1 = broadcast42 :=
  ⟨st0, broadcast42, rfl, rfl, rfl, rfl⟩

/-- Claim C2, refuted on the code: a flood response delivered to the node is
only logged.  For every state and every flood response packet, `handle_packet`
returns the state unchanged and emits nothing, so the node never forwards a
flood response one hop along its route. -/
theorem c2_flood_response_never_forwarded (st : RustafarianDrone)
    (fr : FloodResponse) (sid : Nat) (hdr : SourceRoutingHeader) :
    handle_packet st
        { pack_type := PacketType.FloodResponse fr
          routing_header := hdr
          session_id := sid } =
      Except.ok (st, []) :=
  rfl

/-- Claim C3 counterexample: node 1 receives a packet whose current hop is
node 2.  The forwarder ends in the `todo!()` panic marked `todoMisrouted`,
not in a recoverable MisroutedPacket error value — the code defines no
recoverable error values at all. -/
theorem c3_counterexample :
    forward_packet st0 misrouted = Except.error Panic.todoMisrouted :=
  rfl

/-- Claim C3 as amended: the packet forwarder distinguishes exactly the three
claimed conditions — wrong node at the current hop index, incremented hop
index out of bounds, next hop absent from the Channel Registry — but each
one ends in an unimplemented `todo!()` panic of the node, not in a
recoverable error value. -/
theorem c3_forwarder_panic_outcomes :
    (∀ (st : RustafarianDrone) (p : Packet) (curr : Nat),
      p.routing_header.hops[p.routing_header.hop_index]? = some curr →
      st.id ≠ curr →
      forward_packet st p = Except.error Panic.todoMisrouted) ∧
    (∀ (st : RustafarianDrone) (p : Packet),
      p.routing_header.hops[p.routing_header.hop_index]? = some st.id →
      p.routing_header.hop_index + 1 ≥ p.routing_header.hops.length →
      forward_packet st p = Except.error Panic.todoDestinationReached) ∧
    (∀ (st : RustafarianDrone) (p : Packet) (next : Nat),
      p.routing_header.hops[p.routing_header.hop_index]? = some st.id →
      p.routing_header.hops[p.routing_header.hop_index + 1]? = some next →
      st.neighbors.contains next = false →
      forward_packet st p = Except.error Panic.todoUnknownNextHop) := by
  refine ⟨?_, ?_, ?_⟩
  · intro st p curr hcur hne
    unfold forward_packet
    simp [hcur, hne]
  · intro st p hcur hge
    unfold forward_packet
    simp [hcur, hge]
  · intro st p next hcur hnext hmem
    obtain ⟨hlt, -⟩ := List.getElem?_eq_some.mp hnext
    have hnotge : ¬ p.routing_header.hop_index + 1 ≥ p.routing_header.hops.length := by
      omega
    have hmem2 : next ∉ st.neighbors := by simpa using hmem
    unfold forward_packet
    simp [hcur, hnext, hnotge, hmem2]

/-- Concrete packet placing node 1 at its final hop. -/
def lastHopPkt : Packet :=
  { pack_type := PacketType.Ack {}
    routing_header := { hop_index := 1, hops := [2, 1] }
    session_id := 5 }

/-- Concrete packet whose next hop, node 7, is no neighbor of `st0`. -/
def unknownNextPkt : Packet :=
  { pack_type := PacketType.Ack {}
    routing_header := { hop_index := 0, hops := [1, 7] }
    session_id := 5 }

/-- Claim C3 witness: the three panic conditions at concrete inputs. -/
theorem c3_witness :
    forward_packet st0 misrouted = Except.error Panic.todoMisrouted ∧
    forward_packet st0 lastHopPkt = Except.error Panic.todoDestinationReached ∧
    forward_packet st0 unknownNextPkt = Except.error Panic.todoUnknownNextHop :=
  ⟨c3_forwarder_panic_outcomes.1 st0 misrouted 2 rfl (by decide),
   c3_forwarder_panic_outcomes.2.1 st0 lastHopPkt rfl (by decide),
   c3_forwarder_panic_outcomes.2.2 st0 unknownNextPkt 7 rfl rfl rfl⟩

/-- Claim C4 counterexample: the drone `stSeenNoNbr` has flood id 42 in its
Flood Memory and receives `req42from6`, whose path trace is non-empty — yet
handling emits nothing at all (zero flood responses, not exactly one),
because the predecessor node 6 is absent from its Channel Registry. -/
theorem c4_counterexample :
    stSeenNoNbr.flood_requests.contains req42from6.flood_id = true ∧
    handle_flood_req stSeenNoNbr req42from6 7 hdr0 = Except.ok (stSeenNoNbr, []) :=
  ⟨rfl, rfl⟩

/-- Claim C4 as amended: for every flood request whose flood identifier is
already in the Flood Memory and whose path trace is non-empty, PROVIDED the
last node of the trace before this node's append is present in the Channel
Registry, the node does not re-broadcast and emits exactly one flood
response, carrying the same flood identifier and the node-appended path
trace, whose hop sequence is the exact reverse of the appended trace's node
identifiers with hop index 1, sent to that last-before-append neighbor. -/
theorem c4_turnaround (st : RustafarianDrone) (fid : Nat)
    (trace : List (Nat × NodeType)) (prev : Nat) (k : NodeType) (sid : Nat)
    (hdr : SourceRoutingHeader)
    (hseen : st.flood_requests.contains fid = true)
    (hnb : st.neighbors.contains prev = true) :
    handle_flood_req st { flood_id := fid, path_trace := trace ++ [(prev, k)] } sid hdr =
      Except.ok (st, [(prev,
        { pack_type := PacketType.FloodResponse
            { flood_id := fid,
              path_trace := (trace ++ [(prev, k)]) ++ [(st.id, NodeType.Drone)] }
          routing_header :=
            { hop_index := 1,
              hops := (((trace ++ [(prev, k)]) ++ [(st.id, NodeType.Drone)]).map
                (fun node => node.1)).reverse }
          session_id := sid })]) := by
  rw [handle_flood_req_seen st fid trace prev k sid hdr hseen]
  rw [if_pos hnb]

/-- Claim C4 witness: drone `stSeen` (flood 42 seen, neighbors 2, 3, 6)
turning around flood 42 arrived from node 6. -/
theorem c4_witness :
    stSeen.flood_requests.contains 42 = true ∧
    stSeen.neighbors.contains 6 = true ∧
    handle_flood_req stSeen
        { flood_id := 42,
          path_trace := [(5, NodeType.Drone), (6, NodeType.Drone)] } 7 hdr0 =
      Except.ok (stSeen, [(6,
        { pack_type := PacketType.FloodResponse
            { flood_id := 42,
              path_trace :=
                [(5, NodeType.Drone), (6, NodeType.Drone), (1, NodeType.Drone)] }
          routing_header := { hop_index := 1, hops := [1, 6, 5] }
          session_id := 7 })]) :=
  ⟨rfl, rfl,
   c4_turnaround stSeen 42 [(5, NodeType.Drone)] 6 NodeType.Drone 7 hdr0 rfl rfl⟩

/-- Claim C5: for every flood request with a previously-unseen flood
identifier and a non-empty path trace, the node sends a copy of the request
to every neighbor in the Channel Registry except the one the flood arrived
from (the last trace entry before the self-append); every emission goes to
such a neighbor, carries a flood request, and its path trace is exactly one
entry longer than the incoming one. -/
theorem c5_broadcast (st : RustafarianDrone) (fid : Nat)
    (trace : List (Nat × NodeType)) (prev : Nat) (k : NodeType) (sid : Nat)
    (hdr : SourceRoutingHeader)
    (hnew : st.flood_requests.contains fid = false) :
    ∃ es, handle_flood_req st { flood_id := fid, path_trace := trace ++ [(prev, k)] } sid hdr
        = Except.ok (st, es) ∧
      (∀ nb, nb ∈ st.neighbors → nb ≠ prev →
        ∃ p, (nb, p) ∈ es ∧ ∃ fr, p.pack_type = PacketType.FloodRequest fr ∧
          fr.path_trace.length = (trace ++ [(prev, k)]).length + 1) ∧
      (∀ e, e ∈ es → e.1 ∈ st.neighbors ∧ e.1 ≠ prev ∧
        ∃ fr, e.2.pack_type = PacketType.FloodRequest fr ∧
          fr.path_trace.length = (trace ++ [(prev, k)]).length + 1) := by
  refine ⟨_, handle_flood_req_unseen st fid trace prev k sid hdr hnew, ?_, ?_⟩
  · intro nb hmem hne
    refine ⟨_, List.mem_map_of_mem _ (List.mem_filter.mpr ⟨hmem, by simpa using hne⟩),
      _, rfl, by simp⟩
  · intro e he
    obtain ⟨nb, hnb, rfl⟩ := List.mem_map.mp he
    have hf := List.mem_filter.mp hnb
    exact ⟨hf.1, by simpa using hf.2, _, rfl, by simp⟩

/-- Claim C5 witness: drone `st0` (flood 42 unseen, neighbors 2 and 3)
broadcasting flood 42 arrived from node 5. -/
theorem c5_witness :
    st0.flood_requests.contains 42 = false ∧
    (∃ es, handle_flood_req st0
          { flood_id := 42, path_trace := [(5, NodeType.Drone)] } 9 hdr0 =
        Except.ok (st0, es) ∧
      (∀ nb, nb ∈ st0.neighbors → nb ≠ 5 →
        ∃ p, (nb, p) ∈ es ∧ ∃ fr, p.pack_type = PacketType.FloodRequest fr ∧
          fr.path_trace.length = 2) ∧
      (∀ e, e ∈ es → e.1 ∈ st0.neighbors ∧ e.1 ≠ 5 ∧
        ∃ fr, e.2.pack_type = PacketType.FloodRequest fr ∧
          fr.path_trace.length = 2)) :=
  ⟨rfl, c5_broadcast st0 42 [] 5 NodeType.Drone 9 hdr0 rfl⟩

/-- Claim C7: when the node sits at the current hop index, a next hop exists,
and that next hop is in the Channel Registry, forwarding emits exactly one
packet, to that neighbor, equal to the incoming packet with only the hop
index advanced by exactly one (packet kind, session identifier and hop
sequence unchanged). -/
theorem c7_forward_success (st : RustafarianDrone) (p : Packet) (next : Nat)
    (hcur : p.routing_header.hops[p.routing_header.hop_index]? = some st.id)
    (hnext : p.routing_header.hops[p.routing_header.hop_index + 1]? = some next)
    (hmem : st.neighbors.contains next = true) :
    forward_packet st p = Except.ok [(next,
      { p with routing_header :=
          { p.routing_header with hop_index := p.routing_header.hop_index + 1 } })] := by
  obtain ⟨hlt, -⟩ := List.getElem?_eq_some.mp hnext
  have hnotge : ¬ p.routing_header.hop_index + 1 ≥ p.routing_header.hops.length := by
    omega
  have hmem2 : next ∈ st.neighbors := by simpa using hmem
  unfold forward_packet
  simp [hcur, hnext, hnotge, hmem2]

/-- Concrete packet routed 2 → 1 → 3, currently at node 1. -/
def throughPkt : Packet :=
  { pack_type := PacketType.Ack {}
    routing_header := { hop_index := 1, hops := [2, 1, 3] }
    session_id := 5 }

/-- Claim C7 witness: `st0` forwards `throughPkt` to neighbor 3 with only the
hop index advanced. -/
theorem c7_witness :
    forward_packet st0 throughPkt = Except.ok [(3,
      { pack_type := PacketType.Ack {}
        routing_header := { hop_index := 2, hops := [2, 1, 3] }
        session_id := 5 })] :=
  c7_forward_success st0 throughPkt 3 rfl rfl rfl

/-- Claim C6 counterexample: running the event loop on the single command
`Crash` terminates it, but the Crashed flag of the resulting state is still
`false` — the loop breaks before dispatching `Crash` to the command handler
that would set the flag. -/
theorem c6_counterexample :
    runDrone st0 [DroneCommand.Crash] [] = Except.ok (st0, []) ∧
    st0.crashed = false :=
  ⟨rfl, rfl⟩

/-- Claim C6 as amended: a Crash command at the head of the command queue
terminates the event loop at once, with the state unchanged — in particular
the Crashed flag is NOT set — and with no emission, so no later command and
no data packet, pending or enqueued after the crash, is ever handled or
forwarded.  The `make_crash` handler would set the flag, but the loop's
crash branch breaks before reaching it. -/
theorem c6_crash_stops_loop :
    (∀ (st : RustafarianDrone) (cmds : List DroneCommand) (pkts : List Packet),
      runDrone st (DroneCommand.Crash :: cmds) pkts = Except.ok (st, [])) ∧
    (∀ st : RustafarianDrone, (make_crash st).crashed = true) :=
  ⟨fun _ _ _ => rfl, fun _ => rfl⟩

/-- Claim C8: a Nack, Ack or MsgFragment packet hits the corresponding
`todo!()` branch of `handle_packet`: the outcome is that panic — no emission,
so neither the drop simulator nor the packet forwarder ever runs — and an
event loop delivered such a packet aborts abnormally with that panic. -/
theorem c8_todo_branches (st : RustafarianDrone) (sid : Nat)
    (hdr : SourceRoutingHeader) (n : Nack) (a : Ack) (f : Fragment) :
    handle_packet st { pack_type := PacketType.Nack n, routing_header := hdr, session_id := sid }
        = Except.error Panic.todoNack ∧
    handle_packet st { pack_type := PacketType.Ack a, routing_header := hdr, session_id := sid }
        = Except.error Panic.todoAck ∧
    handle_packet st { pack_type := PacketType.MsgFragment f, routing_header := hdr, session_id := sid }
        = Except.error Panic.todoMsgFragment ∧
    runDrone st [] [{ pack_type := PacketType.Nack n, routing_header := hdr, session_id := sid }]
        = Except.error Panic.todoNack ∧
    runDrone st [] [{ pack_type := PacketType.Ack a, routing_header := hdr, session_id := sid }]
        = Except.error Panic.todoAck ∧
    runDrone st [] [{ pack_type := PacketType.MsgFragment f, routing_header := hdr, session_id := sid }]
        = Except.error Panic.todoMsgFragment :=
  ⟨rfl, rfl, rfl, rfl, rfl, rfl⟩

/-- Claim C9: a flood request whose path trace is empty panics the flood
handler (the `unwrap()` of `last()` on an empty trace), whatever the state —
in the previously-seen branch and in the first-sighting branch alike. -/
theorem c9_empty_trace_panics (st : RustafarianDrone) (fid : Nat) (sid : Nat)
    (hdr : SourceRoutingHeader) :
    handle_flood_req st { flood_id := fid, path_trace := [] } sid hdr =
      Except.error Panic.unwrapEmptyPathTrace := by
  unfold handle_flood_req
  split <;> rfl

/-- Claim C10: whenever the flood request handler returns (does not panic),
the node state is unchanged in every field: node identifier, drop
probability, Channel Registry, Flood Memory and crashed flag. -/
theorem c10_flood_handler_frame (st : RustafarianDrone) (pkt : FloodRequest)
    (sid : Nat) (hdr : SourceRoutingHeader) (st2 : RustafarianDrone)
    (es : List (Nat × Packet))
    (h : handle_flood_req st pkt sid hdr = Except.ok (st2, es)) :
    st2.id = st.id ∧ st2.pdr = st.pdr ∧ st2.neighbors = st.neighbors ∧
      st2.flood_requests = st.flood_requests ∧ st2.crashed = st.crashed := by
  obtain ⟨fid, trace⟩ := pkt
  rcases List.eq_nil_or_concat trace with hnil | ⟨l, a, hconcat⟩
  · subst hnil
    unfold handle_flood_req at h
    split at h <;> simp at h
  · obtain ⟨prev, k⟩ := a
    rw [List.concat_eq_append] at hconcat
    subst hconcat
    by_cases hseen : st.flood_requests.contains fid = true
    · rw [handle_flood_req_seen st fid l prev k sid hdr hseen] at h
      split at h <;>
        (simp only [Except.ok.injEq, Prod.mk.injEq] at h
         obtain ⟨h1, -⟩ := h
         subst h1
         exact ⟨rfl, rfl, rfl, rfl, rfl⟩)
    · have hnew : st.flood_requests.contains fid = false := by
        simpa using hseen
      rw [handle_flood_req_unseen st fid l prev k sid hdr hnew] at h
      simp only [Except.ok.injEq, Prod.mk.injEq] at h
      obtain ⟨h1, -⟩ := h
      subst h1
      exact ⟨rfl, rfl, rfl, rfl, rfl⟩

/-- Claim C10 witness: `st0` handling `req42` returns with every state field
unchanged. -/
theorem c10_witness :
    st0.id = st0.id ∧ st0.pdr = st0.pdr ∧ st0.neighbors = st0.neighbors ∧
      st0.flood_requests = st0.flood_requests ∧ st0.crashed = st0.crashed :=
  c10_flood_handler_frame st0 req42 9 hdr0 st0 broadcast42 rfl
